import Mathlib

/-!
# Verification of the text-similarity core (`text_similarity_app`)

Shallow embedding of `src/text_similarity_app/utils/similarity.py` together
with the static model table from `config/config.py` and
`helpers.get_available_models`.

Modelling choices:
* Python strings are Lean `String`s; `str.strip()`, `str.lower()` and
  `str.translate` (punctuation deletion) are modelled as list-of-character
  transforms (`pyStrip`, `pyLower`, `pyRemovePunct`).
* Floating-point similarity scores are modelled as exact rationals `ℚ`.
* The external `sentence_transformers` / `sklearn` machinery (model loading,
  `model.encode`, `tokenizer.encode`, wall-clock time) is a parameter `Env`
  of the pipeline: each call to `model.encode([t1, t2])` is a pure
  `Except`-valued function of the two texts so that an encoding failure at a
  given pair is expressible, and elapsed wall-clock time is an arbitrary
  environment-supplied rational.
* Python exceptions are `Except PyError`; a function "raises" iff it returns
  `Except.error`.
-/

/-- Python exception values that can cross the similarity core's boundary. -/
inductive PyError where
  /-- Unknown model identifier requested (spec: `ModelNotFoundError`). -/
  | modelNotFound (name : String)
  /-- Any other exception (model load failure, encoding failure, ...). -/
  | other (msg : String)
deriving Repr, DecidableEq

/-- Python's `str.strip()`: drop leading and trailing whitespace characters. -/
def pyStrip (s : String) : String :=
  ⟨((s.data.dropWhile Char.isWhitespace).reverse.dropWhile Char.isWhitespace).reverse⟩

/-- Python's `str.lower()`: character-wise lowercasing. -/
def pyLower (s : String) : String :=
  ⟨s.data.map Char.toLower⟩

/-- Membership in Python's `string.punctuation`
(ASCII codes 33-47, 58-64, 91-96, 123-126). -/
def isPunct (c : Char) : Bool :=
  let n := c.toNat
  (33 ≤ n && n ≤ 47) || (58 ≤ n && n ≤ 64) || (91 ≤ n && n ≤ 96) ||
    (123 ≤ n && n ≤ 126)

/-- `text.translate(str.maketrans('', '', string.punctuation))`:
delete every ASCII punctuation character. -/
def pyRemovePunct (s : String) : String :=
  ⟨s.data.filter (fun c => !isPunct c)⟩

/-- `preprocess_text(text, lowercase, remove_punctuation)` from
`utils/similarity.py`: optional lowercasing, then optional punctuation
removal, then an unconditional `strip()`. -/
def preprocess_text (text : String) (lowercase : Bool) (remove_punctuation : Bool) :
    String :=
  let t1 := if lowercase then pyLower text else text
  let t2 := if remove_punctuation then pyRemovePunct t1 else t1
  pyStrip t2

/-- `get_similarity_interpretation(score)` from `utils/similarity.py`. -/
def get_similarity_interpretation (score : ℚ) : String :=
  if score > 0.8 then "Very Similar"
  else if score > 0.6 then "Moderately Similar"
  else if score > 0.3 then "Somewhat Similar"
  else "Not Similar"

/-- `get_similarity_color(score)` from `utils/similarity.py`. -/
def get_similarity_color (score : ℚ) : String :=
  if score > 0.8 then "#28a745"
  else if score > 0.6 then "#ffc107"
  else if score > 0.3 then "#17a2b8"
  else "#dc3545"

/-- `helpers.get_available_models()`: the fixed set of five known model
identifiers. -/
def available_models : List String :=
  ["all-MiniLM-L6-v2", "all-mpnet-base-v2", "all-distilroberta-v1",
   "paraphrase-multilingual-MiniLM-L12-v2", "paraphrase-albert-small-v2"]

/-- A loaded `SentenceTransformer` handle, as the pipeline observes it:
a pairwise encoder (`model.encode([t1, t2])`, which may raise), the
tokenizer (`tokenizer.encode`) and `get_max_seq_length()`. -/
structure SentenceModel where
  /-- `model.encode([t1, t2])`, returning the two embedding vectors;
  `Except.error` models an exception raised while encoding this pair. -/
  encodePair : String → String → Except PyError (List ℚ × List ℚ)
  /-- `model.tokenizer.encode(text)`. -/
  tokenize : String → List Nat
  /-- `model.get_max_seq_length()`. -/
  maxSeqLength : Nat

/-- The external environment the pipeline runs in: the loaded backends for
the known model identifiers (loading itself may raise, modelling
`ModelLoadError`), the similarity value `sklearn.cosine_similarity` yields on
a pair of embedding vectors, and the elapsed wall-clock time reported by
`time.time()` differences. -/
structure Env where
  /-- Backend obtained for a known model identifier; `Except.error` models a
  load failure (`ModelLoadError`). -/
  models : String → Except PyError SentenceModel
  /-- Observed value of `cosine_similarity([e1], [e2])[0][0]`. -/
  cosineSim : List ℚ → List ℚ → ℚ
  /-- Observed `time.time() - start_time` for a timed section. -/
  elapsed : ℚ

/-- Modelled from the spec: `load_model` in the source is a cached call of
the external `SentenceTransformer(model_name)` constructor, whose behaviour
on identifiers is not in this repository; per the spec's Embedding Provider
contract, a known identifier resolves to its loaded handle (load failures
surfacing as errors) and an unknown identifier fails with
`ModelNotFoundError`. -/
def load_model (env : Env) (model_name : String) : Except PyError SentenceModel :=
  if model_name ∈ available_models then env.models model_name
  else .error (.modelNotFound model_name)

/-- The `token_info` dictionary assembled by `calculate_similarity`. -/
structure TokenInfo where
  text1_tokens : Nat
  text2_tokens : Nat
  total_tokens : Nat
  max_seq_length : Nat
deriving Repr, DecidableEq

/-- The tuple returned by `calculate_similarity`; the empty `token_info`
dictionary of the fast path is modelled as `none`. -/
structure SimilarityResult where
  similarity_score : ℚ
  processing_time : ℚ
  interpretation : String
  token_info : Option TokenInfo
deriving Repr, DecidableEq

/-- The `preprocess_options` dictionary: recognized keys with their
defaults. A Python `None` (or empty dict) argument is `Option.none` on the
caller side. -/
structure PreprocessOptions where
  lowercase : Bool := false
  remove_punctuation : Bool := false
deriving Repr, DecidableEq

/-- `calculate_similarity(text1, text2, model_name, preprocess_options)`
from `utils/similarity.py`: empty-input fast path, optional preprocessing,
model load, token accounting, pairwise encoding, cosine scoring,
interpretation. -/
def calculate_similarity (env : Env) (text1 text2 : String) (model_name : String)
    (preprocess_options : Option PreprocessOptions) :
    Except PyError SimilarityResult :=
  if pyStrip text1 = "" ∨ pyStrip text2 = "" then
    .ok ⟨0, 0, "Empty text detected", none⟩
  else
    let t1 :=
      match preprocess_options with
      | some opts => preprocess_text text1 opts.lowercase opts.remove_punctuation
      | none => text1
    let t2 :=
      match preprocess_options with
      | some opts => preprocess_text text2 opts.lowercase opts.remove_punctuation
      | none => text2
    match load_model env model_name with
    | .error e => .error e
    | .ok model =>
        let tokens1 := model.tokenize t1
        let tokens2 := model.tokenize t2
        let token_info : TokenInfo :=
          ⟨tokens1.length, tokens2.length, tokens1.length + tokens2.length,
           model.maxSeqLength⟩
        match model.encodePair t1 t2 with
        | .error e => .error e
        | .ok (e1, e2) =>
            let score := env.cosineSim e1 e2
            .ok ⟨score, env.elapsed, get_similarity_interpretation score,
                 some token_info⟩

/-- One row of the list returned by `calculate_batch_similarity`. -/
structure BatchItemResult where
  pair_id : Nat
  text1 : String
  text2 : String
  similarity_score : ℚ
  similarity_percentage : ℚ
  interpretation : String
  processing_time : ℚ
deriving Repr, DecidableEq

/-- The preview expression `text[:100] + '...' if len(text) > 100 else text`
used for both text columns of a batch row. -/
def truncatePreview (t : String) : String :=
  if t.length > 100 then (⟨t.data.take 100⟩ : String) ++ "..." else t

/-- The body of the `for i, (text1, text2) in enumerate(text_pairs)` loop of
`calculate_batch_similarity`, for loop index `i`. -/
def batchItem (env : Env) (model : SentenceModel) (i : Nat)
    (text1 text2 : String) : Except PyError BatchItemResult :=
  if pyStrip text1 ≠ "" ∧ pyStrip text2 ≠ "" then
    match model.encodePair text1 text2 with
    | .error e => .error e
    | .ok (e1, e2) =>
        let score := env.cosineSim e1 e2
        .ok ⟨i + 1, truncatePreview text1, truncatePreview text2, score,
             score * 100, get_similarity_interpretation score, env.elapsed⟩
  else
    .ok ⟨i + 1, truncatePreview text1, truncatePreview text2, 0, 0,
         "Empty text detected", 0⟩

/-- The loop of `calculate_batch_similarity`, accumulating one result per
pair; an exception in any iteration aborts the whole loop (there is no
`try`/`except` in the source). -/
def batchLoop (env : Env) (model : SentenceModel) :
    Nat → List (String × String) → Except PyError (List BatchItemResult)
  | _, [] => .ok []
  | i, (t1, t2) :: rest =>
      match batchItem env model i t1 t2 with
      | .error e => .error e
      | .ok r =>
          match batchLoop env model (i + 1) rest with
          | .error e => .error e
          | .ok rs => .ok (r :: rs)

/-- `calculate_batch_similarity(text_pairs, model_name)` from
`utils/similarity.py`: load the model once, then process the pairs in input
order. -/
def calculate_batch_similarity (env : Env) (text_pairs : List (String × String))
    (model_name : String) : Except PyError (List BatchItemResult) :=
  match load_model env model_name with
  | .error e => .error e
  | .ok model => batchLoop env model 0 text_pairs

/-- Dot product of two embedding vectors (componentwise product, summed). -/
def dotProduct (a b : List ℚ) : ℚ :=
  (List.zipWith (fun x y => x * y) a b).sum

/-- Modelled from the spec: the Similarity Scorer's notion of vector
magnitude (`sklearn` computes it inside `cosine_similarity`, which is not in
this repository): the Euclidean norm, the square root of the vector's dot
product with itself. -/
noncomputable def magnitude (a : List ℚ) : ℝ :=
  Real.sqrt ((dotProduct a a : ℚ) : ℝ)

open Classical in
/-- Modelled from the spec: the Similarity Scorer
(`sklearn.metrics.pairwise.cosine_similarity`, external to this repository):
dot product divided by the product of the two magnitudes, with `0.0` by
convention when either magnitude is zero. -/
noncomputable def cosine_similarity (a b : List ℚ) : ℝ :=
  if magnitude a = 0 ∨ magnitude b = 0 then 0
  else ((dotProduct a b : ℚ) : ℝ) / (magnitude a * magnitude b)

/-- A benign backend for concrete runs: every pair encodes to the same two
unit vectors, token counts are character counts. -/
def demoModel : SentenceModel where
  encodePair := fun _ _ => .ok ([1, 0], [1, 0])
  tokenize := fun s => List.replicate s.length 0
  maxSeqLength := 256

/-- A benign environment for concrete runs: every model loads, equal
embeddings score `1`, distinct ones `1/2`, and timed sections take `3/100`
seconds. -/
def demoEnv : Env where
  models := fun _ => .ok demoModel
  cosineSim := fun a b => if a = b then 1 else 1/2
  elapsed := 3/100

/-- A backend whose encoder raises on the text `"a"` and succeeds on every
other text. -/
def failingModel : SentenceModel where
  encodePair := fun t1 _ =>
    if t1 = "a" then .error (.other "encoding failure") else .ok ([1], [1])
  tokenize := fun _ => []
  maxSeqLength := 256

/-- An environment built on `failingModel`. -/
def failEnv : Env where
  models := fun _ => .ok failingModel
  cosineSim := fun _ _ => 1
  elapsed := 0

/-- A 101-character text, one character over the preview limit. -/
def longText : String :=
  ⟨List.replicate 101 'a'⟩

/-! ## Helper lemmas about stripping and the batch loop -/

theorem pyStrip_data (s : String) :
    (pyStrip s).data =
      (s.data.dropWhile Char.isWhitespace).rdropWhile Char.isWhitespace := rfl

theorem dropWhile_rdropWhile_eq_self {α : Type} (p : α → Bool) (l : List α)
    (hl : l.dropWhile p = l) : (l.rdropWhile p).dropWhile p = l.rdropWhile p := by
  rw [List.dropWhile_eq_self_iff] at hl ⊢
  intro h0
  have hpre := List.rdropWhile_prefix p l
  have hlen : 0 < l.length := lt_of_lt_of_le h0 hpre.length_le
  have hget := hpre.getElem (n := 0) (by simpa using h0)
  simp only [List.get_eq_getElem]
  rw [hget]
  simpa [List.get_eq_getElem] using hl hlen

theorem pyStrip_pyStrip (s : String) : pyStrip (pyStrip s) = pyStrip s := by
  apply String.ext
  rw [pyStrip_data, pyStrip_data]
  rw [dropWhile_rdropWhile_eq_self _ _ (List.dropWhile_idempotent _ _)]
  exact List.rdropWhile_idempotent _ _

theorem toLower_whitespace (c : Char) (h : c.isWhitespace) : c.toLower = c := by
  simp only [Char.isWhitespace, Bool.or_eq_true, decide_eq_true_eq] at h
  rcases h with ((h | h) | h) | h <;> subst h <;> decide

theorem pyStrip_all_whitespace (s : String) (h : ∀ c ∈ s.data, c.isWhitespace) :
    pyStrip s = "" := by
  apply String.ext
  rw [pyStrip_data, List.dropWhile_eq_nil_iff.mpr h]
  simp [List.rdropWhile_nil]

theorem batchItem_ok_fields (env : Env) (model : SentenceModel) (i : Nat)
    (t1 t2 : String) (r : BatchItemResult)
    (h : batchItem env model i t1 t2 = .ok r) :
    r.pair_id = i + 1 ∧ r.text1 = truncatePreview t1 ∧
      r.text2 = truncatePreview t2 := by
  unfold batchItem at h
  by_cases hc : pyStrip t1 ≠ "" ∧ pyStrip t2 ≠ ""
  · rw [if_pos hc] at h
    cases henc : model.encodePair t1 t2 with
    | error e => rw [henc] at h; simp at h
    | ok pair =>
        obtain ⟨e1, e2⟩ := pair
        rw [henc] at h
        simp only [Except.ok.injEq] at h
        subst h
        exact ⟨rfl, rfl, rfl⟩
  · rw [if_neg hc] at h
    simp only [Except.ok.injEq] at h
    subst h
    exact ⟨rfl, rfl, rfl⟩

theorem batchLoop_ok_spec (env : Env) (model : SentenceModel) :
    ∀ (l : List (String × String)) (k : Nat) (rs : List BatchItemResult),
      batchLoop env model k l = .ok rs →
      rs.length = l.length ∧
      ∀ j (hj : j < rs.length) (hl : j < l.length),
        batchItem env model (k + j) (l.get ⟨j, hl⟩).1 (l.get ⟨j, hl⟩).2
          = .ok (rs.get ⟨j, hj⟩)
  | [], k, rs, h => by
      simp only [batchLoop, Except.ok.injEq] at h
      subst h
      exact ⟨rfl, fun j hj hl => absurd hl (by simp)⟩
  | (t1, t2) :: rest, k, rs, h => by
      simp only [batchLoop] at h
      cases hbi : batchItem env model k t1 t2 with
      | error e => rw [hbi] at h; simp at h
      | ok r =>
          rw [hbi] at h
          cases hbl : batchLoop env model (k + 1) rest with
          | error e => rw [hbl] at h; simp at h
          | ok rs2 =>
              rw [hbl] at h
              simp only [Except.ok.injEq] at h
              subst h
              obtain ⟨hlen, hget⟩ := batchLoop_ok_spec env model rest (k + 1) rs2 hbl
              refine ⟨by simp [hlen], ?_⟩
              intro j hj hl
              cases j with
              | zero => simpa using hbi
              | succ j =>
                  have hrec := hget j (by simpa using hj) (by simpa using hl)
                  have hk : k + (j + 1) = (k + 1) + j := by omega
                  rw [hk]
                  simpa using hrec

theorem batchLoop_error_of_encode_fail (env : Env) (model : SentenceModel) :
    ∀ (l : List (String × String)) (k : Nat),
      (∃ p ∈ l, pyStrip p.1 ≠ "" ∧ pyStrip p.2 ≠ "" ∧
        ∃ e, model.encodePair p.1 p.2 = .error e) →
      ∃ e, batchLoop env model k l = .error e
  | [], _, h => by simp at h
  | (t1, t2) :: rest, k, h => by
      simp only [batchLoop]
      cases hbi : batchItem env model k t1 t2 with
      | error e => exact ⟨e, rfl⟩
      | ok r =>
          obtain ⟨p, hp, h1, h2, e, henc⟩ := h
          rcases List.mem_cons.mp hp with hph | hpt
          · exfalso
            subst hph
            unfold batchItem at hbi
            rw [if_pos ⟨h1, h2⟩] at hbi
            rw [henc] at hbi
            simp at hbi
          · obtain ⟨e2, hrec⟩ := batchLoop_error_of_encode_fail env model rest (k + 1)
              ⟨p, hpt, h1, h2, e, henc⟩
            rw [hrec]
            exact ⟨e2, rfl⟩

/-! ## Claim theorems -/

/-- C2: `get_similarity_interpretation` classifies with the strict
thresholds 0.8, 0.6 and 0.3: "Very Similar" exactly when the score exceeds
0.8, "Moderately Similar" exactly on (0.6, 0.8], "Somewhat Similar" exactly
on (0.3, 0.6], "Not Similar" otherwise; in particular a score of exactly
0.8 is "Moderately Similar". -/
theorem interpretation_thresholds :
    (∀ s : ℚ,
      (get_similarity_interpretation s = "Very Similar" ↔ 0.8 < s) ∧
      (get_similarity_interpretation s = "Moderately Similar" ↔ 0.6 < s ∧ s ≤ 0.8) ∧
      (get_similarity_interpretation s = "Somewhat Similar" ↔ 0.3 < s ∧ s ≤ 0.6) ∧
      (get_similarity_interpretation s = "Not Similar" ↔ s ≤ 0.3)) ∧
    get_similarity_interpretation 0.8 = "Moderately Similar" := by
  constructor
  · intro s
    unfold get_similarity_interpretation
    split_ifs with h1 h2 h3 <;> simp_all <;> (try constructor) <;> (try intro) <;>
      linarith
  · unfold get_similarity_interpretation
    norm_num

/-- C10: the interpretation and the colour classify scores by the identical
threshold partition: two scores get the same interpretation exactly when
they get the same colour. -/
theorem interpretation_color_partition (s1 s2 : ℚ) :
    get_similarity_interpretation s1 = get_similarity_interpretation s2 ↔
    get_similarity_color s1 = get_similarity_color s2 := by
  unfold get_similarity_interpretation get_similarity_color
  split_ifs <;> simp_all

/-- C8: with both options off, `preprocess_text` is exactly Python's
`strip()`; a whitespace-only text normalizes to the empty string; and the
result is trimmed (stripping it again changes nothing) whatever the
options. -/
theorem preprocess_normalize_trim (t : String) :
    preprocess_text t false false = pyStrip t ∧
    ((∀ c ∈ t.data, c.isWhitespace) → ∀ lc rp, preprocess_text t lc rp = "") ∧
    (∀ lc rp, pyStrip (preprocess_text t lc rp) = preprocess_text t lc rp) := by
  refine ⟨rfl, ?_, ?_⟩
  · intro h lc rp
    have h1 : ∀ c ∈ (if lc then pyLower t else t).data, c.isWhitespace := by
      cases lc with
      | false => simpa using h
      | true =>
          intro c hc
          simp only [if_true, pyLower] at hc
          obtain ⟨c', hc', rfl⟩ := List.mem_map.mp hc
          rw [toLower_whitespace c' (h c' hc')]
          exact h c' hc'
    have h2 : ∀ c ∈ (if rp then pyRemovePunct (if lc then pyLower t else t)
        else (if lc then pyLower t else t)).data, c.isWhitespace := by
      cases rp with
      | false => simpa using h1
      | true =>
          intro c hc
          simp only [if_true, pyRemovePunct] at hc
          exact h1 c (List.mem_of_mem_filter hc)
    exact pyStrip_all_whitespace _ h2
  · intro lc rp
    exact pyStrip_pyStrip
      (if rp then pyRemovePunct (if lc then pyLower t else t)
       else (if lc then pyLower t else t))

/-- Witness for C8 at concrete inputs: a whitespace-only text normalizes to
`""` under both options, and a plain text is stripped. -/
theorem preprocess_normalize_trim_witness :
    preprocess_text " \t " true true = "" ∧
    preprocess_text "  ab  " false false = pyStrip "  ab  " := by
  refine ⟨(preprocess_normalize_trim " \t ").2.1 ?_ true true,
          (preprocess_normalize_trim "  ab  ").1⟩
  decide

/-- C4: `calculate_batch_similarity` is length-preserving and index-aligned:
on a normal (non-raising) return the result list has one row per input
pair, the i-th row carries `pair_id = i + 1`, so `pair_id` values are
unique; the empty input yields the empty result whenever the model loads. -/
theorem batch_length_pair_id (env : Env) (pairs : List (String × String))
    (model_name : String) :
    (∀ model, load_model env model_name = .ok model →
      calculate_batch_similarity env [] model_name = .ok []) ∧
    ∀ rs, calculate_batch_similarity env pairs model_name = .ok rs →
      rs.length = pairs.length ∧
      (∀ i (hi : i < rs.length), (rs.get ⟨i, hi⟩).pair_id = i + 1) ∧
      (∀ i j (hi : i < rs.length) (hj : j < rs.length),
        (rs.get ⟨i, hi⟩).pair_id = (rs.get ⟨j, hj⟩).pair_id → i = j) := by
  constructor
  · intro model hm
    unfold calculate_batch_similarity
    rw [hm]
    rfl
  · intro rs h
    unfold calculate_batch_similarity at h
    cases hm : load_model env model_name with
    | error e => rw [hm] at h; simp at h
    | ok model =>
        rw [hm] at h
        obtain ⟨hlen, hget⟩ := batchLoop_ok_spec env model pairs 0 rs h
        have hpid : ∀ i (hi : i < rs.length), (rs.get ⟨i, hi⟩).pair_id = i + 1 := by
          intro i hi
          have hl : i < pairs.length := hlen ▸ hi
          have := (batchItem_ok_fields env model (0 + i) _ _ _ (hget i hi hl)).1
          simpa using this
        refine ⟨hlen, hpid, ?_⟩
        intro i j hi hj hij
        have := (hpid i hi).symm.trans (hij.trans (hpid j hj))
        omega

/-- Witness for C4: a concrete two-pair batch (second pair empty) returns
two rows with `pair_id` 1 and 2. -/
theorem batch_length_pair_id_witness :
    ∃ rs, calculate_batch_similarity demoEnv [("x", "y"), ("", "z")]
        "all-MiniLM-L6-v2" = .ok rs ∧
      rs.length = 2 ∧ ∃ h0 : 0 < rs.length, ∃ h1 : 1 < rs.length,
        (rs.get ⟨0, h0⟩).pair_id = 1 ∧ (rs.get ⟨1, h1⟩).pair_id = 2 := by
  have hev : calculate_batch_similarity demoEnv [("x", "y"), ("", "z")]
      "all-MiniLM-L6-v2"
      = .ok [⟨1, "x", "y", 1, 100, "Very Similar", 3/100⟩,
             ⟨2, "", "z", 0, 0, "Empty text detected", 0⟩] := by
    simp +decide [calculate_batch_similarity, load_model, available_models,
      batchLoop, batchItem, demoEnv, demoModel, pyStrip, truncatePreview,
      get_similarity_interpretation]
    norm_num
  obtain ⟨hlen, hpid, -⟩ :=
    (batch_length_pair_id demoEnv [("x", "y"), ("", "z")] "all-MiniLM-L6-v2").2 _ hev
  refine ⟨_, hev, hlen, by simp, by simp, hpid 0 (by simp), hpid 1 (by simp)⟩

/-- C1 counterexample: with a backend that raises while encoding the first
pair but encodes the second pair fine, the whole batch call raises —
no result is produced for the healthy second pair, and there is no per-pair
error marker. -/
theorem batch_failure_not_isolated_cex :
    failingModel.encodePair "b" "b" = .ok ([1], [1]) ∧
    calculate_batch_similarity failEnv [("a", "a"), ("b", "b")] "all-MiniLM-L6-v2"
      = .error (.other "encoding failure") :=
  ⟨rfl, rfl⟩

/-- C1 (amended): if embedding or scoring raises for any pair whose two
texts are non-empty after trimming, `calculate_batch_similarity` raises as a
whole and produces no results at all; only empty-text pairs are isolated
(they get a zero-score placeholder row instead of failing). -/
theorem batch_encode_failure_raises (env : Env) (model_name : String)
    (model : SentenceModel) (pairs : List (String × String))
    (hload : load_model env model_name = .ok model)
    (hfail : ∃ p ∈ pairs, pyStrip p.1 ≠ "" ∧ pyStrip p.2 ≠ "" ∧
      ∃ e, model.encodePair p.1 p.2 = .error e) :
    ∃ e, calculate_batch_similarity env pairs model_name = .error e := by
  unfold calculate_batch_similarity
  rw [hload]
  exact batchLoop_error_of_encode_fail env model pairs 0 hfail

/-- Witness for the amended C1 at the concrete failing batch. -/
theorem batch_encode_failure_raises_witness :
    ∃ e, calculate_batch_similarity failEnv [("a", "a"), ("b", "b")]
      "all-MiniLM-L6-v2" = .error e :=
  batch_encode_failure_raises failEnv "all-MiniLM-L6-v2" failingModel
    [("a", "a"), ("b", "b")] rfl
    ⟨("a", "a"), by simp, by decide, by decide, .other "encoding failure", rfl⟩

/-- C3: if either raw input is empty after trimming, `calculate_similarity`
returns immediately — for every environment, model identifier and options —
with score 0, processing time 0, the "Empty text detected" interpretation
and no token info, and it does not raise. -/
theorem empty_text_fast_path (env : Env) (text1 text2 model_name : String)
    (opts : Option PreprocessOptions)
    (h : pyStrip text1 = "" ∨ pyStrip text2 = "") :
    calculate_similarity env text1 text2 model_name opts =
      .ok ⟨0, 0, "Empty text detected", none⟩ := by
  unfold calculate_similarity
  rw [if_pos h]

/-- Witness for C3: `""` vs `"hello"`, even with an unknown model and
preprocessing options set, returns the zero fast-path result. -/
theorem empty_text_fast_path_witness :
    calculate_similarity demoEnv "" "hello" "unknown-model" (some ⟨true, true⟩) =
      .ok ⟨0, 0, "Empty text detected", none⟩ :=
  empty_text_fast_path demoEnv "" "hello" "unknown-model" (some ⟨true, true⟩)
    (Or.inl (by decide))

/-- C6: an identifier outside the five known models makes `load_model` fail
with `ModelNotFoundError`; the whole batch call fails the same way for every
input sequence (before any pair is embedded, in every environment), and the
single-pair call fails the same way whenever its inputs are non-empty. -/
theorem unknown_model_aborts (env : Env) (name : String)
    (h : name ∉ available_models) :
    load_model env name = .error (.modelNotFound name) ∧
    (∀ pairs, calculate_batch_similarity env pairs name
      = .error (.modelNotFound name)) ∧
    (∀ t1 t2 opts, pyStrip t1 ≠ "" → pyStrip t2 ≠ "" →
      calculate_similarity env t1 t2 name opts = .error (.modelNotFound name)) := by
  have hl : load_model env name = .error (.modelNotFound name) := by
    unfold load_model
    rw [if_neg h]
  refine ⟨hl, fun pairs => ?_, fun t1 t2 opts h1 h2 => ?_⟩
  · unfold calculate_batch_similarity
    rw [hl]
  · unfold calculate_similarity
    rw [if_neg (by tauto)]
    rw [hl]

/-- Witness for C6 at a concrete unknown identifier. -/
theorem unknown_model_aborts_witness :
    calculate_batch_similarity demoEnv [("a", "b")] "no-such-model"
      = .error (.modelNotFound "no-such-model") ∧
    calculate_similarity demoEnv "a" "b" "no-such-model" none
      = .error (.modelNotFound "no-such-model") := by
  have h := unknown_model_aborts demoEnv "no-such-model" (by decide)
  exact ⟨h.2.1 [("a", "b")], h.2.2 "a" "b" none (by decide) (by decide)⟩

theorem truncatePreview_of_le (t : String) (h : t.length ≤ 100) :
    truncatePreview t = t := by
  unfold truncatePreview
  rw [if_neg (by omega)]

theorem truncatePreview_of_gt (t : String) (h : 100 < t.length) :
    truncatePreview t = (⟨t.data.take 100⟩ : String) ++ "..." ∧
      (truncatePreview t).length = 103 := by
  unfold truncatePreview
  rw [if_pos h]
  refine ⟨rfl, ?_⟩
  have hlen : (⟨t.data.take 100⟩ : String).length = 100 := by
    simp only [String.length]
    rw [List.length_take]
    have : t.data.length = t.length := rfl
    omega
  rw [String.length_append, hlen]
  rfl

theorem truncatePreview_length_le (t : String) :
    (truncatePreview t).length ≤ 103 := by
  by_cases h : t.length ≤ 100
  · rw [truncatePreview_of_le t h]
    omega
  · rw [(truncatePreview_of_gt t (by omega)).2]

/-- C5 counterexample: a 101-character first text yields a batch row whose
`text1` preview is 103 characters long (100 kept characters plus the
three-character ellipsis), refuting the claimed 100-character bound. -/
theorem batch_preview_length_cex :
    longText.length = 101 ∧
    ∃ rs, calculate_batch_similarity demoEnv [(longText, "y")] "all-MiniLM-L6-v2"
        = .ok rs ∧ ∃ h0 : 0 < rs.length,
      (rs.get ⟨0, h0⟩).text1.length = 103 ∧ ¬(rs.get ⟨0, h0⟩).text1.length ≤ 100 := by
  have hev : calculate_batch_similarity demoEnv [(longText, "y")] "all-MiniLM-L6-v2"
      = .ok [⟨1, (⟨List.replicate 100 'a'⟩ : String) ++ "...", "y", 1, 100,
             "Very Similar", 3/100⟩] := by
    simp +decide [calculate_batch_similarity, load_model, available_models,
      batchLoop, batchItem, demoEnv, demoModel, pyStrip, truncatePreview,
      longText, get_similarity_interpretation]
    norm_num
  refine ⟨by decide, _, hev, by simp, by decide, by decide⟩

/-- C5 (amended): previews in batch rows are at most 103 characters long: a
text of at most 100 characters appears unchanged, and a longer text is cut
to its first 100 characters with `"..."` appended (103 characters total). -/
theorem batch_preview_truncation :
    (∀ t : String, (t.length ≤ 100 → truncatePreview t = t) ∧
      (100 < t.length → truncatePreview t = (⟨t.data.take 100⟩ : String) ++ "..." ∧
        (truncatePreview t).length = 103)) ∧
    (∀ env pairs model_name rs,
      calculate_batch_similarity env pairs model_name = .ok rs →
      ∀ j (hj : j < rs.length) (hl : j < pairs.length),
        (rs.get ⟨j, hj⟩).text1 = truncatePreview (pairs.get ⟨j, hl⟩).1 ∧
        (rs.get ⟨j, hj⟩).text2 = truncatePreview (pairs.get ⟨j, hl⟩).2 ∧
        (rs.get ⟨j, hj⟩).text1.length ≤ 103 ∧
        (rs.get ⟨j, hj⟩).text2.length ≤ 103) := by
  constructor
  · intro t
    exact ⟨truncatePreview_of_le t, truncatePreview_of_gt t⟩
  · intro env pairs model_name rs hbatch j hj hl
    unfold calculate_batch_similarity at hbatch
    cases hm : load_model env model_name with
    | error e => rw [hm] at hbatch; simp at hbatch
    | ok model =>
        rw [hm] at hbatch
        obtain ⟨hlen, hget⟩ := batchLoop_ok_spec env model pairs 0 rs hbatch
        obtain ⟨-, ht1, ht2⟩ := batchItem_ok_fields env model (0 + j) _ _ _ (hget j hj hl)
        refine ⟨ht1, ht2, ?_, ?_⟩
        · rw [ht1]; exact truncatePreview_length_le _
        · rw [ht2]; exact truncatePreview_length_le _

/-- Witness for the amended C5 at a concrete 101-character text. -/
theorem batch_preview_truncation_witness :
    ∃ rs, calculate_batch_similarity demoEnv [(longText, "y")] "all-MiniLM-L6-v2"
        = .ok rs ∧ ∃ h0 : 0 < rs.length,
      (rs.get ⟨0, h0⟩).text1 = truncatePreview longText ∧
      (rs.get ⟨0, h0⟩).text1.length ≤ 103 := by
  have hev : calculate_batch_similarity demoEnv [(longText, "y")] "all-MiniLM-L6-v2"
      = .ok [⟨1, (⟨List.replicate 100 'a'⟩ : String) ++ "...", "y", 1, 100,
             "Very Similar", 3/100⟩] := by
    simp +decide [calculate_batch_similarity, load_model, available_models,
      batchLoop, batchItem, demoEnv, demoModel, pyStrip, truncatePreview,
      longText, get_similarity_interpretation]
    norm_num
  obtain ⟨h1, h2, h3, h4⟩ :=
    batch_preview_truncation.2 demoEnv [(longText, "y")] "all-MiniLM-L6-v2" _ hev
      0 (by simp) (by simp)
  exact ⟨_, hev, by simp, h1, h3⟩

/-- C7: for a pair whose two texts are non-empty after trimming, the
`similarity_score` of its row in `calculate_batch_similarity` equals the
score `calculate_similarity` returns for the same raw texts and model with
no preprocessing options — both paths feed the raw texts to the same
encoder and scorer. -/
theorem batch_single_score_agreement (env : Env) (model_name : String)
    (pairs : List (String × String)) (j : Nat) (hl : j < pairs.length)
    (rs : List BatchItemResult) (res : SimilarityResult)
    (h1 : pyStrip (pairs.get ⟨j, hl⟩).1 ≠ "")
    (h2 : pyStrip (pairs.get ⟨j, hl⟩).2 ≠ "")
    (hbatch : calculate_batch_similarity env pairs model_name = .ok rs)
    (hsingle : calculate_similarity env (pairs.get ⟨j, hl⟩).1
      (pairs.get ⟨j, hl⟩).2 model_name none = .ok res) :
    ∃ hj : j < rs.length,
      (rs.get ⟨j, hj⟩).similarity_score = res.similarity_score := by
  unfold calculate_batch_similarity at hbatch
  cases hm : load_model env model_name with
  | error e => rw [hm] at hbatch; simp at hbatch
  | ok model =>
      rw [hm] at hbatch
      obtain ⟨hlen, hget⟩ := batchLoop_ok_spec env model pairs 0 rs hbatch
      have hj : j < rs.length := by rw [hlen]; exact hl
      refine ⟨hj, ?_⟩
      have hitem := hget j hj hl
      unfold batchItem at hitem
      rw [if_pos ⟨h1, h2⟩] at hitem
      unfold calculate_similarity at hsingle
      rw [if_neg (by tauto)] at hsingle
      simp only [hm] at hsingle
      cases henc : model.encodePair (pairs.get ⟨j, hl⟩).1 (pairs.get ⟨j, hl⟩).2 with
      | error e => rw [henc] at hitem; simp at hitem
      | ok pair =>
          obtain ⟨e1, e2⟩ := pair
          rw [henc] at hitem
          simp only [henc] at hsingle
          simp only [Except.ok.injEq] at hitem hsingle
          rw [← hitem, ← hsingle]

/-- Witness for C7 at a concrete pair: batch score and single-pair score
both equal 1. -/
theorem batch_single_score_agreement_witness :
    ∃ rs res,
      calculate_batch_similarity demoEnv [("x", "y")] "all-MiniLM-L6-v2" = .ok rs ∧
      calculate_similarity demoEnv "x" "y" "all-MiniLM-L6-v2" none = .ok res ∧
      ∃ hj : 0 < rs.length,
        (rs.get ⟨0, hj⟩).similarity_score = res.similarity_score := by
  have hb : calculate_batch_similarity demoEnv [("x", "y")] "all-MiniLM-L6-v2"
      = .ok [⟨1, "x", "y", 1, 100, "Very Similar", 3/100⟩] := by
    simp +decide [calculate_batch_similarity, load_model, available_models,
      batchLoop, batchItem, demoEnv, demoModel, pyStrip, truncatePreview,
      get_similarity_interpretation]
    norm_num
  have hs : calculate_similarity demoEnv "x" "y" "all-MiniLM-L6-v2" none
      = .ok ⟨1, 3/100, "Very Similar", some ⟨1, 1, 2, 256⟩⟩ := by
    simp +decide [calculate_similarity, load_model, available_models, demoEnv,
      demoModel, pyStrip, get_similarity_interpretation]
    norm_num
  obtain ⟨hj, hsc⟩ := batch_single_score_agreement demoEnv "all-MiniLM-L6-v2"
    [("x", "y")] 0 (by simp) _ _ (by decide) (by decide) hb hs
  exact ⟨_, _, hb, hs, hj, hsc⟩

theorem dotProduct_self_nonneg (a : List ℚ) : 0 ≤ dotProduct a a := by
  induction a with
  | nil => simp [dotProduct]
  | cons x a ih =>
      have hc : dotProduct (x :: a) (x :: a) = x * x + dotProduct a a := rfl
      rw [hc]
      exact add_nonneg (mul_self_nonneg x) ih

theorem dotProduct_self_eq_zero (a : List ℚ) :
    dotProduct a a = 0 ↔ ∀ x ∈ a, x = 0 := by
  induction a with
  | nil => simp [dotProduct]
  | cons x a ih =>
      have hc : dotProduct (x :: a) (x :: a) = x * x + dotProduct a a := rfl
      rw [hc, add_eq_zero_iff_of_nonneg (mul_self_nonneg x) (dotProduct_self_nonneg a),
        mul_self_eq_zero, ih, List.forall_mem_cons]

theorem magnitude_eq_zero (a : List ℚ) :
    magnitude a = 0 ↔ ∀ x ∈ a, x = 0 := by
  unfold magnitude
  rw [Real.sqrt_eq_zero (by exact_mod_cast dotProduct_self_nonneg a)]
  rw [show (((dotProduct a a : ℚ) : ℝ) = 0 ↔ dotProduct a a = 0) from by
    exact_mod_cast Iff.rfl]
  exact dotProduct_self_eq_zero a

/-- C9: on equal-length vectors the scorer returns 0 whenever either vector
has zero magnitude (equivalently, is the all-zero vector) instead of
dividing by zero, and otherwise returns the dot product divided by the
product of the two magnitudes, whose divisor is then provably non-zero. -/
theorem cosine_zero_magnitude_policy (a b : List ℚ) (_hab : a.length = b.length) :
    (magnitude a = 0 ↔ ∀ x ∈ a, x = 0) ∧
    ((magnitude a = 0 ∨ magnitude b = 0) → cosine_similarity a b = 0) ∧
    (magnitude a ≠ 0 → magnitude b ≠ 0 →
      magnitude a * magnitude b ≠ 0 ∧
      cosine_similarity a b
        = ((dotProduct a b : ℚ) : ℝ) / (magnitude a * magnitude b)) := by
  refine ⟨magnitude_eq_zero a, ?_, ?_⟩
  · intro h
    unfold cosine_similarity
    rw [if_pos h]
  · intro ha hb
    refine ⟨mul_ne_zero ha hb, ?_⟩
    unfold cosine_similarity
    rw [if_neg (by tauto)]

/-- Witness for C9: the zero vector against `[3, 4]` scores 0. -/
theorem cosine_zero_magnitude_policy_witness :
    cosine_similarity [(0 : ℚ), 0] [3, 4] = 0 := by
  have h := cosine_zero_magnitude_policy [(0 : ℚ), 0] [3, 4] rfl
  exact h.2.1 (Or.inl (h.1.mpr (by simp)))
